import Mathlib

/-!
Shallow embedding of the price-history aggregation and recommendation engine
of the trenes optimization tool (`src/trenes_tool/optimizer.py` and
`src/trenes_tool/models.py`).

Prices are Python `Decimal` values; they are embedded as exact rationals `ℚ`.
The source stores the sample standard deviation (`statistics.stdev`) and only
ever compares it against thresholds; the one comparison that executes (the
outlier test) is embedded as a decidable comparison on the (rational) sample
variance via squaring, justified by the lemma `sqrtLT_iff` below.

The data-driven branch of `get_optimization_recommendation` never returns: on
every call with at least 3 stored samples, `_generate_recommendation` reaches
the factor-4 guard `analysis["price_volatility"] > analysis["historical_average"] * 0.1`
(optimizer.py:220), whose `Decimal * float` multiplication raises `TypeError`
in Python before the comparison is made.  The embedding therefore models the
recommendation call as `Except PyError OptimizationResult`: only the no-data
path returns a result, and the data path propagates the raised `TypeError`
after executing factors 1-3 (optimizer.py:186-217).  The code after line 220
(confidence, reasoning, the PRICE_ALERT override, the result construction and
`_get_optimal_window`) is unreachable and is not given semantics.
-/

namespace TrenesTool

/-! ### List statistics helpers (Python `min`, `max`, `statistics.mean`, `statistics.stdev`) -/

/-- Python `min(list)` over a list of rationals (0 on the empty list, which the
source never passes to `min`). -/
def listMin : List ℚ → ℚ
  | [] => 0
  | x :: xs => xs.foldl min x

/-- Python `max(list)` over a list of rationals (0 on the empty list). -/
def listMax : List ℚ → ℚ
  | [] => 0
  | x :: xs => xs.foldl max x

/-- Python `statistics.mean`: sum divided by length. -/
def listMean (l : List ℚ) : ℚ := l.sum / l.length

/-- The square of Python `statistics.stdev`: the unbiased sample variance
`Σ (x − mean)² / (n − 1)`. -/
def sampleVariance (l : List ℚ) : ℚ :=
  ((l.map (fun x => (x - listMean l) ^ 2)).sum) / ((l.length : ℚ) - 1)

/-- Decides `Real.sqrt v < t` for `v ≥ 0` without leaving `ℚ`:
`sqrt v < t` iff `t > 0` and `v < t²`. -/
def sqrtLT (v t : ℚ) : Bool :=
  if t ≤ 0 then false else decide (v < t ^ 2)

/-! ### Data model (`models.py`) -/

/-- `TrainRoute` restricted to the fields the optimizer reads:
origin/destination station codes, the departure date (rendered as the string
that appears in the route key) and the train type. -/
structure TrainRoute where
  originCode : String
  destinationCode : String
  departureDate : String
  trainType : String
deriving DecidableEq

/-- `PriceData`: one observed price for a route (price in euros as `Decimal`,
embedded as `ℚ`), with the scrape timestamp embedded as an integer. -/
structure PriceData where
  route : TrainRoute
  price : ℚ
  scrapedAt : ℤ
deriving DecidableEq

/-- `PriceHistory`: ordered price series for one route key, with the running
statistics maintained by `_update_statistics`. -/
structure PriceHistory where
  route_key : String
  prices : List PriceData := []
  lowest_price : Option ℚ := none
  highest_price : Option ℚ := none
  average_price : Option ℚ := none
deriving DecidableEq

/-- `PriceHistory._update_statistics`: recompute min/max/mean unless the
series is empty. -/
def PriceHistory.updateStatistics (h : PriceHistory) : PriceHistory :=
  if h.prices = [] then h
  else
    let ps := h.prices.map (·.price)
    { h with
      lowest_price := some (listMin ps)
      highest_price := some (listMax ps)
      average_price := some (ps.sum / ps.length) }

/-- `PriceHistory.add_price`: append the sample, then update statistics. -/
def PriceHistory.addPrice (h : PriceHistory) (pd : PriceData) : PriceHistory :=
  PriceHistory.updateStatistics { h with prices := h.prices ++ [pd] }

/-- `OptimizationRecommendation` enumeration. -/
inductive OptimizationRecommendation where
  | BUY_NOW
  | WAIT
  | PRICE_ALERT
  | NO_DATA
deriving DecidableEq

/-- `OptimizationResult` restricted to the fields the claims mention (the
source's `price_volatility` stdev field is carried as the variance
`price_variance` it is the square root of).  The optional analysis fields
are populated only by the unreachable data-path result construction in the
source, so every result the embedded program returns leaves them `none`,
as `_no_data_recommendation` does. -/
structure OptimizationResult where
  route_key : String
  current_price : ℚ
  recommendation : OptimizationRecommendation
  confidence : ℚ
  reasoning : String
  suggested_action : String
  price_trend : Option String := none
  optimal_purchase_window : Option String := none
  days_until_departure : ℤ
  historical_low : Option ℚ := none
  historical_high : Option ℚ := none
  price_variance : Option ℚ := none
deriving DecidableEq

/-! ### Optimizer (`optimizer.py`) -/

/-- The optimizer's mutable table `price_histories : Dict[str, PriceHistory]`,
modelled as a map from keys to optional histories. -/
structure PriceOptimizer where
  priceHistories : String → Option PriceHistory

/-- A freshly constructed optimizer: empty table. -/
def PriceOptimizer.empty : PriceOptimizer := ⟨fun _ => none⟩

/-- `_generate_route_key`: `f"{origin}_{destination}_{travel_date}_{train_type}"`. -/
def generateRouteKey (route : TrainRoute) (travelDate : String) : String :=
  route.originCode ++ "_" ++ route.destinationCode ++ "_" ++ travelDate ++ "_" ++ route.trainType

/-- `add_price_data`: create the history on first sight of the key, then
append the sample to it. -/
def addPriceData (opt : PriceOptimizer) (pd : PriceData) : PriceOptimizer :=
  let route_key := generateRouteKey pd.route pd.route.departureDate
  let h : PriceHistory :=
    match opt.priceHistories route_key with
    | none => { route_key := route_key }
    | some h => h
  ⟨fun k => if k = route_key then some (h.addPrice pd) else opt.priceHistories k⟩

/-- The last up-to-`n` elements of a list: Python `l[-n:]`. -/
def lastN (n : ℕ) (l : List α) : List α := l.drop (l.length - n)

/-- `_calculate_trend`: relative change of the last sample over the first
sample of the (windowed) list, against a ±5% threshold. -/
def calculateTrend (prices : List ℚ) : String :=
  if prices.length < 2 then "stable"
  else
    let recent_change := (prices.getLastD 0 - prices.headD 0) / prices.headD 0
    if recent_change > 0.05 then "rising"
    else if recent_change < -0.05 then "falling"
    else "stable"

/-- `_is_price_outlier`: `|current − mean| > 2·stdev`, false with fewer than
3 samples.  Source compares against the stdev; both sides being nonnegative,
this is `sqrt (sampleVariance) < |current − mean| / 2`, decided by `sqrtLT`. -/
def isPriceOutlier (current_price : ℚ) (historical_prices : List ℚ) : Bool :=
  if historical_prices.length < 3 then false
  else sqrtLT (sampleVariance historical_prices) (|current_price - listMean historical_prices| / 2)

/-- The analysis dictionary built by `_analyze_price_trends`.
`price_variance` is the square of the source's `price_volatility` stdev. -/
structure TrendAnalysis where
  historical_low : ℚ
  historical_high : ℚ
  historical_average : ℚ
  recent_average : ℚ
  price_variance : ℚ
  current_vs_historical_low : ℚ
  current_vs_average : ℚ
  trend : String
  is_outlier : Bool
deriving DecidableEq

/-- `_analyze_price_trends`. -/
def analyzePriceTrends (history : PriceHistory) (current_price : ℚ) : TrendAnalysis :=
  let prices := history.prices.map (·.price)
  let recent_prices := lastN 7 prices
  { historical_low := listMin prices
    historical_high := listMax prices
    historical_average := listMean prices
    recent_average := if recent_prices ≠ [] then listMean recent_prices else current_price
    price_variance := if 1 < prices.length then sampleVariance prices else 0
    current_vs_historical_low := current_price / listMin prices
    current_vs_average := current_price / listMean prices
    trend := calculateTrend recent_prices
    is_outlier := isPriceOutlier current_price prices }

/-- One weighted factor: (label, weight, rationale phrase). -/
abbrev Factor := String × ℚ × String

/-- Factor 1 of `_generate_recommendation` (days until departure), together
with the recommendation after it (initial value `WAIT`, forced to `BUY_NOW`
when `days ≤ 3`). -/
def step1 (days : ℤ) : List Factor × OptimizationRecommendation :=
  if days ≤ 3 then ([("urgent", 0.8, "Very close to departure")], .BUY_NOW)
  else if days ≤ 7 then ([("soon", 0.6, "Close to departure")], .WAIT)
  else if days ≤ 14 then ([("moderate", 0.4, "Moderate time remaining")], .WAIT)
  else ([("early", 0.2, "Plenty of time")], .WAIT)

/-- Factor 2 of `_generate_recommendation` (price vs historical data). -/
def step2 (a : TrendAnalysis) (days : ℤ) (acc : List Factor × OptimizationRecommendation) :
    List Factor × OptimizationRecommendation :=
  if a.current_vs_historical_low ≤ 1.1 then
    (acc.1 ++ [("excellent_price", 0.9, "Excellent price")], .BUY_NOW)
  else if a.current_vs_average ≤ 0.9 then
    (acc.1 ++ [("good_price", 0.7, "Good price")], acc.2)
  else if a.current_vs_average ≥ 1.2 then
    (acc.1 ++ [("high_price", 0.8, "High price")], if days > 7 then .WAIT else acc.2)
  else acc

/-- Factor 3 of `_generate_recommendation` (price trend). -/
def step3 (a : TrendAnalysis) (acc : List Factor × OptimizationRecommendation) :
    List Factor × OptimizationRecommendation :=
  if a.trend = "falling" then
    (acc.1 ++ [("falling_trend", 0.6, "Prices are falling")],
     if acc.2 = .BUY_NOW then .BUY_NOW else .WAIT)
  else if a.trend = "rising" then
    (acc.1 ++ [("rising_trend", 0.7, "Prices are rising")], .BUY_NOW)
  else acc

/-- The in-flight (factor list, recommendation) pair of
`_generate_recommendation` after factors 1-3 (optimizer.py:186-217): the
local state of the function at the moment the factor-4 guard on line 220 is
evaluated. -/
def factorState (days : ℤ) (a : TrendAnalysis) : List Factor × OptimizationRecommendation :=
  step3 a (step2 a days (step1 days))

/-- The Python exception raised by the optimizer. -/
inductive PyError where
  | typeError
deriving DecidableEq

/-- Factor 4 of `_generate_recommendation` (optimizer.py:219-221): the guard
`analysis["price_volatility"] > analysis["historical_average"] * 0.1`
multiplies the `Decimal` historical average by the float literal `0.1`,
which raises `TypeError` in Python on every execution, before the comparison
is made and whatever the analysis and the in-flight factor state are. -/
def step4 (_a : TrendAnalysis) (_acc : List Factor × OptimizationRecommendation) : PyError :=
  PyError.typeError

/-- `_get_suggested_action`. -/
def getSuggestedAction : OptimizationRecommendation → String
  | .BUY_NOW => "Book your ticket immediately"
  | .WAIT => "Wait and monitor prices for a few more days"
  | .PRICE_ALERT => "Excellent price! Consider booking if your plans are confirmed"
  | .NO_DATA => "Monitor prices to gather more data"

/-- `_generate_recommendation` (optimizer.py:172-249): factors 1-3
(lines 186-217) execute and build the in-flight factor list and
recommendation, and the factor-4 guard on line 220 then raises `TypeError`,
so the function never returns; the confidence, reasoning, PRICE_ALERT
override and result construction on lines 224-249 are unreachable and are
given no semantics. -/
def generateRecommendation (_current_price : ℚ) (days : ℤ) (a : TrendAnalysis)
    (_history : PriceHistory) : Except PyError OptimizationResult :=
  Except.error (step4 a (factorState days a))

/-- `_no_data_recommendation`. -/
def noDataRecommendation (route_key : String) (current_price : ℚ)
    (days : ℤ) : OptimizationResult :=
  if days ≤ 7 then
    { route_key := route_key
      current_price := current_price
      recommendation := .BUY_NOW
      confidence := 0.5
      reasoning := "Limited time until departure. Book now to secure your seat."
      suggested_action := getSuggestedAction .BUY_NOW
      days_until_departure := days }
  else if days ≤ 30 then
    { route_key := route_key
      current_price := current_price
      recommendation := .WAIT
      confidence := 0.3
      reasoning := "Monitor prices for a few more days before booking."
      suggested_action := getSuggestedAction .WAIT
      days_until_departure := days }
  else
    { route_key := route_key
      current_price := current_price
      recommendation := .WAIT
      confidence := 0.4
      reasoning := "Too early to book. Wait for better price data."
      suggested_action := getSuggestedAction .WAIT
      days_until_departure := days }

/-- `get_optimization_recommendation`.  The source derives
`days_until_departure` from the travel date and the current clock; the day
count is taken here as an input.  With no stored history or fewer than 3
samples the call returns the no-data recommendation; otherwise it runs
`_analyze_price_trends` (which executes without fault) and then
`_generate_recommendation`, which raises `TypeError` (optimizer.py:220), so
the call propagates the exception instead of returning. -/
def getOptimizationRecommendation (opt : PriceOptimizer) (route : TrainRoute)
    (current_price : ℚ) (travelDate : String) (days : ℤ) :
    Except PyError OptimizationResult :=
  let route_key := generateRouteKey route travelDate
  match opt.priceHistories route_key with
  | none => Except.ok (noDataRecommendation route_key current_price days)
  | some history =>
    if history.prices.length < 3 then Except.ok (noDataRecommendation route_key current_price days)
    else generateRecommendation current_price days (analyzePriceTrends history current_price) history

/-- The statistics record returned by `get_price_statistics` (the source's
`price_volatility` stdev is again carried as its square). -/
structure PriceStats where
  route_key : String
  total_data_points : ℕ
  lowest_price : ℚ
  highest_price : ℚ
  average_price : ℚ
  price_variance : ℚ
  collection_start : ℤ
  collection_end : ℤ
deriving DecidableEq

/-- Python `min` over the scrape timestamps (0 on the empty list, which the
source never passes to `min`). -/
def listMinInt : List ℤ → ℤ
  | [] => 0
  | x :: xs => xs.foldl min x

/-- Python `max` over the scrape timestamps (0 on the empty list). -/
def listMaxInt : List ℤ → ℤ
  | [] => 0
  | x :: xs => xs.foldl max x

/-- `get_price_statistics`. -/
def getPriceStatistics (opt : PriceOptimizer) (route_key : String) : Option PriceStats :=
  match opt.priceHistories route_key with
  | none => none
  | some history =>
    let prices := history.prices.map (·.price)
    some
      { route_key := route_key
        total_data_points := prices.length
        lowest_price := listMin prices
        highest_price := listMax prices
        average_price := listMean prices
        price_variance := if 1 < prices.length then sampleVariance prices else 0
        collection_start := listMinInt (history.prices.map (·.scrapedAt))
        collection_end := listMaxInt (history.prices.map (·.scrapedAt)) }

/-! ### Reachable optimizer states -/

/-- The optimizer state reached from a fresh optimizer by ingesting the given
samples in order through `add_price_data`. -/
def runIngest (l : List PriceData) : PriceOptimizer :=
  l.foldl addPriceData PriceOptimizer.empty

/-- The table invariant: every stored history is non-empty and is stored
under its own `route_key`. -/
def StoreInv (opt : PriceOptimizer) : Prop :=
  ∀ k h, opt.priceHistories k = some h → h.prices ≠ [] ∧ h.route_key = k

/-! ### Claim-side restatements (from the specification's words, for
refinement comparisons against the source-derived definitions above) -/

/-- Claim-side trend rule: `delta = (last − first) / first` over the trailing
window, against the ±5% thresholds. -/
def specTrendOfWindow (w : List ℚ) : String :=
  if (w.getLastD 0 - w.headD 0) / w.headD 0 > 0.05 then "rising"
  else if (w.getLastD 0 - w.headD 0) / w.headD 0 < -0.05 then "falling"
  else "stable"

/-! ### Concrete fixtures for the claim scenarios -/

/-- A concrete route used by the claim scenarios. -/
def routeA : TrainRoute := ⟨"MAD", "BCN", "2026-10-20", "AVE"⟩

/-- The travel date of `routeA` as it appears in its route key. -/
def dateA : String := "2026-10-20"

/-- The route key generated for `routeA` and `dateA`. -/
def keyA : String := "MAD_BCN_2026-10-20_AVE"

/-- A price sample on `routeA`. -/
def sampleA (p : ℚ) (t : ℤ) : PriceData := ⟨routeA, p, t⟩

/-- The C1 series `[100, 100, 100, 100, 100, 100, 70]` in arrival order. -/
def samples1 : List PriceData :=
  [sampleA 100 0, sampleA 100 1, sampleA 100 2, sampleA 100 3,
   sampleA 100 4, sampleA 100 5, sampleA 70 6]

/-- The optimizer state holding exactly the C1 series. -/
def opt1 : PriceOptimizer := runIngest samples1

/-- A series with mean 100, sample standard deviation 10 and minimum 95
(`ratio_to_low = 95/95 = 1 ≤ 1.05` at candidate price 95), for C2. -/
def samples2 : List PriceData :=
  [sampleA 95 0, sampleA 95 1, sampleA 95 2, sampleA 115 3]

/-- The optimizer state holding exactly the C2 series. -/
def opt2 : PriceOptimizer := runIngest samples2

/-- The history stored in `opt2` under `keyA`. -/
def hist2 : PriceHistory :=
  { route_key := keyA, prices := samples2,
    lowest_price := some 95, highest_price := some 115, average_price := some 100 }

/-- A bare history holding the C1 series (for analysis-level statements). -/
def hist1 : PriceHistory := { route_key := keyA, prices := samples1 }

/-- A concrete analysis with a rising trend (for witnesses). -/
def aRising : TrendAnalysis :=
  { historical_low := 90, historical_high := 120, historical_average := 100,
    recent_average := 105, price_variance := 50, current_vs_historical_low := 1.2,
    current_vs_average := 1.05, trend := "rising", is_outlier := false }

/-- The history stored after ingesting the single sample `sampleA 100 0`. -/
def histW : PriceHistory :=
  { route_key := keyA, prices := [sampleA 100 0],
    lowest_price := some 100, highest_price := some 100, average_price := some 100 }

/-! ### General lemmas -/

/-- `sqrtLT` is a faithful translation of a `stdev < t` comparison. -/
theorem sqrtLT_iff (v t : ℚ) :
    sqrtLT v t = true ↔ Real.sqrt (v : ℝ) < (t : ℝ) := by
  unfold sqrtLT
  split
  · rename_i h
    simp only [Bool.false_eq_true, false_iff, not_lt]
    calc (t : ℝ) ≤ 0 := by exact_mod_cast h
      _ ≤ Real.sqrt v := Real.sqrt_nonneg _
  · rename_i h
    push_neg at h
    rw [decide_eq_true_eq]
    rw [show ((v : ℚ) < t ^ 2) ↔ ((v : ℝ) < (t : ℝ) ^ 2) by exact_mod_cast Iff.rfl]
    rw [Real.sqrt_lt' (by exact_mod_cast h)]

lemma foldl_min_le_init (l : List ℚ) (a : ℚ) : l.foldl min a ≤ a := by
  induction l generalizing a with
  | nil => simp
  | cons x xs ih => exact (ih (min a x)).trans (min_le_left a x)

lemma foldl_min_le_of_mem {l : List ℚ} {x : ℚ} (a : ℚ) (hx : x ∈ l) :
    l.foldl min a ≤ x := by
  induction l generalizing a with
  | nil => cases hx
  | cons y ys ih =>
    rcases List.mem_cons.mp hx with rfl | hmem
    · exact (foldl_min_le_init ys (min a x)).trans (min_le_right a x)
    · exact ih _ hmem

lemma init_le_foldl_max (l : List ℚ) (a : ℚ) : a ≤ l.foldl max a := by
  induction l generalizing a with
  | nil => simp
  | cons x xs ih => exact (le_max_left a x).trans (ih (max a x))

lemma mem_le_foldl_max {l : List ℚ} {x : ℚ} (a : ℚ) (hx : x ∈ l) :
    x ≤ l.foldl max a := by
  induction l generalizing a with
  | nil => cases hx
  | cons y ys ih =>
    rcases List.mem_cons.mp hx with rfl | hmem
    · exact (le_max_right a x).trans (init_le_foldl_max ys (max a x))
    · exact ih _ hmem

lemma listMin_le_of_mem {l : List ℚ} {x : ℚ} (hx : x ∈ l) : listMin l ≤ x := by
  cases l with
  | nil => cases hx
  | cons y ys =>
    rcases List.mem_cons.mp hx with rfl | hmem
    · exact foldl_min_le_init ys x
    · exact foldl_min_le_of_mem y hmem

lemma le_listMax_of_mem {l : List ℚ} {x : ℚ} (hx : x ∈ l) : x ≤ listMax l := by
  cases l with
  | nil => cases hx
  | cons y ys =>
    rcases List.mem_cons.mp hx with rfl | hmem
    · exact init_le_foldl_max ys x
    · exact mem_le_foldl_max y hmem

lemma length_cast_pos {l : List ℚ} (h : l ≠ []) : (0 : ℚ) < l.length := by
  have := List.length_pos.mpr h
  exact_mod_cast this

lemma listMin_le_listMean {l : List ℚ} (h : l ≠ []) : listMin l ≤ listMean l := by
  have hb : (l.length) • listMin l ≤ l.sum :=
    List.card_nsmul_le_sum l _ (fun x hx => listMin_le_of_mem hx)
  rw [listMean, le_div_iff₀ (length_cast_pos h)]
  rw [nsmul_eq_mul] at hb
  linarith

lemma listMean_le_listMax {l : List ℚ} (h : l ≠ []) : listMean l ≤ listMax l := by
  have hb : l.sum ≤ (l.length) • listMax l :=
    List.sum_le_card_nsmul l _ (fun x hx => le_listMax_of_mem hx)
  rw [listMean, div_le_iff₀ (length_cast_pos h)]
  rw [nsmul_eq_mul] at hb
  linarith

/-! ### Structural lemmas about the recommendation pipeline -/

lemma updateStatistics_prices (h : PriceHistory) :
    (PriceHistory.updateStatistics h).prices = h.prices := by
  unfold PriceHistory.updateStatistics
  split <;> rfl

lemma updateStatistics_route_key (h : PriceHistory) :
    (PriceHistory.updateStatistics h).route_key = h.route_key := by
  unfold PriceHistory.updateStatistics
  split <;> rfl

lemma addPrice_prices (h : PriceHistory) (pd : PriceData) :
    (h.addPrice pd).prices = h.prices ++ [pd] := by
  unfold PriceHistory.addPrice
  rw [updateStatistics_prices]

lemma addPrice_route_key (h : PriceHistory) (pd : PriceData) :
    (h.addPrice pd).route_key = h.route_key := by
  unfold PriceHistory.addPrice
  rw [updateStatistics_route_key]

lemma noData_rec_cases (k : String) (c : ℚ) (days : ℤ) :
    (noDataRecommendation k c days).recommendation = .BUY_NOW ∨
    (noDataRecommendation k c days).recommendation = .WAIT := by
  unfold noDataRecommendation
  split_ifs <;> simp

lemma store_inv_empty : StoreInv PriceOptimizer.empty := by
  intro k h hk
  exact Option.noConfusion hk

lemma store_inv_add (opt : PriceOptimizer) (pd : PriceData) (hinv : StoreInv opt) :
    StoreInv (addPriceData opt pd) := by
  intro k h hk
  by_cases hkey : k = generateRouteKey pd.route pd.route.departureDate
  · subst hkey
    cases hl : opt.priceHistories (generateRouteKey pd.route pd.route.departureDate) with
    | none =>
      simp only [addPriceData, hl, eq_self_iff_true, if_true, Option.some.injEq] at hk
      refine ⟨?_, ?_⟩
      · rw [← hk, addPrice_prices]
        simp
      · rw [← hk, addPrice_route_key]
    | some h' =>
      simp only [addPriceData, hl, eq_self_iff_true, if_true, Option.some.injEq] at hk
      refine ⟨?_, ?_⟩
      · rw [← hk, addPrice_prices]
        simp
      · rw [← hk, addPrice_route_key]
        exact (hinv _ _ hl).2
  · simp only [addPriceData, if_neg hkey] at hk
    exact hinv _ _ hk

lemma store_inv_fold (l : List PriceData) :
    ∀ opt : PriceOptimizer, StoreInv opt → StoreInv (l.foldl addPriceData opt) := by
  induction l with
  | nil => exact fun opt h => h
  | cons x xs ih => exact fun opt h => ih _ (store_inv_add opt x h)

/-! ### Claim theorems -/

/-- C3: for every route whose stored series has fewer than 3 samples
(including no series at all), the recommendation call returns the
no-data-path output determined solely by `days_until_departure`:
BUY_NOW with confidence exactly 0.5 when days ≤ 7, WAIT with confidence
exactly 0.3 when 8 ≤ days ≤ 30, WAIT with confidence exactly 0.4 when
days > 30; the recommendation is always one of BUY_NOW/WAIT and the
confidence is always one of 0.5/0.3/0.4 exactly. -/
theorem claim3_no_data_path (opt : PriceOptimizer) (route : TrainRoute) (td : String)
    (c : ℚ) (days : ℤ) (r : OptimizationResult)
    (hnd : opt.priceHistories (generateRouteKey route td) = none ∨
      ∃ h, opt.priceHistories (generateRouteKey route td) = some h ∧ h.prices.length < 3)
    (hr : getOptimizationRecommendation opt route c td days = Except.ok r) :
    (days ≤ 7 → r.recommendation = .BUY_NOW ∧ r.confidence = 0.5) ∧
    (8 ≤ days → days ≤ 30 → r.recommendation = .WAIT ∧ r.confidence = 0.3) ∧
    (30 < days → r.recommendation = .WAIT ∧ r.confidence = 0.4) ∧
    (r.recommendation = .BUY_NOW ∨ r.recommendation = .WAIT) ∧
    (r.confidence = 0.5 ∨ r.confidence = 0.3 ∨ r.confidence = 0.4) := by
  have hok : getOptimizationRecommendation opt route c td days =
      Except.ok (noDataRecommendation (generateRouteKey route td) c days) := by
    rcases hnd with hnone | ⟨h, hsome, hlen⟩
    · unfold getOptimizationRecommendation
      simp only [hnone]
    · unfold getOptimizationRecommendation
      simp only [hsome, if_pos hlen]
  rw [hok] at hr
  have hr' : r = noDataRecommendation (generateRouteKey route td) c days :=
    (Except.ok.inj hr).symm
  subst hr'
  unfold noDataRecommendation
  split_ifs with h1 h2
  · exact ⟨fun _ => ⟨rfl, rfl⟩, fun h8 _ => absurd h1 (by omega),
      fun h30 => absurd h1 (by omega), Or.inl rfl, Or.inl rfl⟩
  · exact ⟨fun h7 => absurd h7 h1, fun _ _ => ⟨rfl, rfl⟩,
      fun h30 => absurd h2 (by omega), Or.inr rfl, Or.inr (Or.inl rfl)⟩
  · exact ⟨fun h7 => absurd h7 h1, fun _ h30 => absurd h30 h2,
      fun _ => ⟨rfl, rfl⟩, Or.inr rfl, Or.inr (Or.inr rfl)⟩

/-- Witness for C3: with an empty optimizer and 10 days until departure the
call returns the no-data result, which is WAIT with confidence 0.3. -/
theorem claim3_witness :
    (noDataRecommendation (generateRouteKey routeA dateA) 80 10).recommendation = .WAIT ∧
    (noDataRecommendation (generateRouteKey routeA dateA) 80 10).confidence = 0.3 :=
  (claim3_no_data_path PriceOptimizer.empty routeA dateA 80 10
    (noDataRecommendation (generateRouteKey routeA dateA) 80 10)
    (Or.inl rfl) rfl).2.1 (by norm_num) (by norm_num)

/-- C4 counterexample: the stored series [95, 95, 95, 115] has a rising
trend, yet the recommendation call raises TypeError at the volatility
factor (optimizer.py:220), so no factor-derived recommendation is ever
handed to the post-hoc override and no BUY_NOW result is returned. -/
theorem claim4_counterexample :
    (analyzePriceTrends hist2 95).trend = "rising" ∧
    getOptimizationRecommendation opt2 routeA 95 dateA 10 = Except.error PyError.typeError := by
  norm_num +decide [opt2, runIngest, samples2, sampleA, routeA, dateA, hist2,
    getOptimizationRecommendation, PriceOptimizer.empty, addPriceData,
    PriceHistory.addPrice, PriceHistory.updateStatistics, generateRouteKey,
    generateRecommendation, step4, factorState, step1, step2, step3,
    analyzePriceTrends, calculateTrend, isPriceOutlier, sqrtLT, lastN,
    listMin, listMax, listMean, sampleVariance, min_def, max_def,
    abs_eq_max_neg]

/-- C4 amended: the recommendation-mutating rules of
`_generate_recommendation` run in the fixed order days, price-vs-history,
trend, with later forced assignments overwriting earlier ones except where
guarded (falling sets WAIT only if not already BUY_NOW; the high-price rule
sets WAIT only if days > 7); consequently whenever trend = "rising" the
in-flight recommendation after the trend rule — the local state at the
moment the factor-4 guard on optimizer.py:220 is evaluated — is BUY_NOW.
That guard then raises TypeError, so the value never reaches a post-hoc
override and the function returns nothing. -/
theorem claim4_rule_order (days : ℤ) (a : TrendAnalysis) :
    (a.trend = "rising" → (factorState days a).2 = .BUY_NOW) ∧
    (a.trend = "falling" →
      (factorState days a).2 =
        (if (step2 a days (step1 days)).2 = .BUY_NOW then .BUY_NOW else .WAIT)) ∧
    (¬ a.current_vs_historical_low ≤ 1.1 → a.current_vs_average ≥ 1.2 → days ≤ 7 →
      (step2 a days (step1 days)).2 = (step1 days).2) ∧
    (∀ c h, generateRecommendation c days a h = Except.error PyError.typeError) := by
  refine ⟨?_, ?_, ?_, fun c h => rfl⟩
  · intro ht
    unfold factorState
    unfold step3
    rw [ht]
    rw [if_neg (by decide), if_pos rfl]
  · intro ht
    unfold factorState
    unfold step3
    rw [ht]
    rw [if_pos rfl]
  · intro h1 h2 h7
    unfold step2
    rw [if_neg h1]
    rw [if_neg (by intro hc; linarith), if_pos h2]
    rw [if_neg (by omega : ¬ days > 7)]

/-- Witness for C4: at a concrete rising-trend analysis and 20 days the
in-flight recommendation after the trend rule is BUY_NOW. -/
theorem claim4_witness : (factorState 20 aRising).2 = .BUY_NOW :=
  (claim4_rule_order 20 aRising).1 rfl

/-- C9: the recommendation call never returns a result whose recommendation
is NO_DATA, even though NO_DATA is a declared member of the enumeration:
every result it actually returns comes from the no-data path and carries
BUY_NOW or WAIT (the data-driven branch raises TypeError instead of
returning), and with no stored history the call returns the no-data result,
whose recommendation is BUY_NOW or WAIT. -/
theorem claim9_never_no_data (opt : PriceOptimizer) (route : TrainRoute) (td : String)
    (c : ℚ) (days : ℤ) :
    (∀ res : OptimizationResult,
      getOptimizationRecommendation opt route c td days = Except.ok res →
        res.recommendation ≠ .NO_DATA ∧
        (res.recommendation = .BUY_NOW ∨ res.recommendation = .WAIT)) ∧
    (opt.priceHistories (generateRouteKey route td) = none →
      getOptimizationRecommendation opt route c td days =
        Except.ok (noDataRecommendation (generateRouteKey route td) c days) ∧
      ((noDataRecommendation (generateRouteKey route td) c days).recommendation = .BUY_NOW ∨
       (noDataRecommendation (generateRouteKey route td) c days).recommendation = .WAIT)) := by
  have hnd : ∀ k : String, (noDataRecommendation k c days).recommendation ≠ .NO_DATA ∧
      ((noDataRecommendation k c days).recommendation = .BUY_NOW ∨
       (noDataRecommendation k c days).recommendation = .WAIT) := by
    intro k
    rcases noData_rec_cases k c days with h | h
    · exact ⟨by rw [h]; decide, Or.inl h⟩
    · exact ⟨by rw [h]; decide, Or.inr h⟩
  constructor
  · intro res hres
    unfold getOptimizationRecommendation at hres
    cases hl : opt.priceHistories (generateRouteKey route td) with
    | none =>
      simp only [hl, Except.ok.injEq] at hres
      rw [← hres]
      exact hnd _
    | some history =>
      simp only [hl] at hres
      by_cases hlen : history.prices.length < 3
      · rw [if_pos hlen] at hres
        simp only [Except.ok.injEq] at hres
        rw [← hres]
        exact hnd _
      · rw [if_neg hlen] at hres
        rw [show generateRecommendation c days (analyzePriceTrends history c) history =
          Except.error PyError.typeError from rfl] at hres
        exact Except.noConfusion hres
  · intro hnone
    have hok : getOptimizationRecommendation opt route c td days =
        Except.ok (noDataRecommendation (generateRouteKey route td) c days) := by
      unfold getOptimizationRecommendation
      simp only [hnone]
    exact ⟨hok, (hnd _).2⟩

/-- Witness for C9: on an empty optimizer at 50 days the call returns the
no-data result, whose recommendation is BUY_NOW or WAIT. -/
theorem claim9_witness :
    getOptimizationRecommendation PriceOptimizer.empty routeA 80 dateA 50 =
      Except.ok (noDataRecommendation (generateRouteKey routeA dateA) 80 50) ∧
    ((noDataRecommendation (generateRouteKey routeA dateA) 80 50).recommendation = .BUY_NOW ∨
     (noDataRecommendation (generateRouteKey routeA dateA) 80 50).recommendation = .WAIT) :=
  (claim9_never_no_data PriceOptimizer.empty routeA dateA 80 50).2 rfl

/-- C5 (code bug evaluation): the claimed confidence rule is the code's own
intent (optimizer.py:224 computes the mean of the triggered factor weights
and line 240 caps it at 1.0), but that code is unreachable: every
data-driven call raises TypeError at the factor-4 guard on line 220 (the
Decimal historical average multiplied by the float 0.1) before any
confidence is computed.  At the failing input — stored series
[95, 95, 95, 115], candidate 100, 12 days until departure — the call
raises TypeError instead of returning a confidence. -/
theorem claim5_code_bug_eval :
    getOptimizationRecommendation opt2 routeA 100 dateA 12 = Except.error PyError.typeError := by
  norm_num +decide [opt2, runIngest, samples2, sampleA, routeA, dateA,
    getOptimizationRecommendation, PriceOptimizer.empty, addPriceData,
    PriceHistory.addPrice, PriceHistory.updateStatistics, generateRouteKey,
    generateRecommendation, step4, listMin, listMax, listMean, min_def, max_def]

/-- C6: for every series with at least 3 samples the trend is computed only
from the trailing window of the last min(7, n) samples in arrival order, as
delta = (last − first)/first with ±5% thresholds. -/
theorem claim6_trend_window (h : PriceHistory) (c : ℚ)
    (hlen : 3 ≤ h.prices.length) :
    (lastN 7 (h.prices.map (·.price))).length = min 7 (h.prices.map (·.price)).length ∧
    (analyzePriceTrends h c).trend = specTrendOfWindow (lastN 7 (h.prices.map (·.price))) := by
  have hmaplen : (h.prices.map (·.price)).length = h.prices.length := by simp
  have hdroplen : (lastN 7 (h.prices.map (·.price))).length =
      min 7 (h.prices.map (·.price)).length := by
    unfold lastN
    rw [List.length_drop]
    omega
  refine ⟨hdroplen, ?_⟩
  have htrend : (analyzePriceTrends h c).trend =
      calculateTrend (lastN 7 (h.prices.map (·.price))) := rfl
  rw [htrend]
  unfold calculateTrend specTrendOfWindow
  rw [if_neg (by rw [hdroplen, hmaplen]; omega)]

/-- Witness for C6: the trend of the C1 series follows the window rule. -/
theorem claim6_witness :
    (analyzePriceTrends hist1 72).trend = specTrendOfWindow (lastN 7 (hist1.prices.map (·.price))) :=
  (claim6_trend_window hist1 72 (by simp [hist1, samples1])).2

/-- C7: for every non-empty series, historical_low ≤ p ≤ historical_high for
every observed price p, and historical_low ≤ historical_average ≤
historical_high. -/
theorem claim7_bounds (h : PriceHistory) (c : ℚ) (hne : h.prices ≠ []) :
    (∀ pd ∈ h.prices,
      (analyzePriceTrends h c).historical_low ≤ pd.price ∧
      pd.price ≤ (analyzePriceTrends h c).historical_high) ∧
    (analyzePriceTrends h c).historical_low ≤ (analyzePriceTrends h c).historical_average ∧
    (analyzePriceTrends h c).historical_average ≤ (analyzePriceTrends h c).historical_high := by
  have hlow : (analyzePriceTrends h c).historical_low = listMin (h.prices.map (·.price)) := rfl
  have hhigh : (analyzePriceTrends h c).historical_high = listMax (h.prices.map (·.price)) := rfl
  have havg : (analyzePriceTrends h c).historical_average = listMean (h.prices.map (·.price)) := rfl
  have hne' : h.prices.map (·.price) ≠ [] := by
    simpa using hne
  refine ⟨?_, ?_, ?_⟩
  · intro pd hpd
    have hmem : pd.price ∈ h.prices.map (·.price) := List.mem_map_of_mem _ hpd
    exact ⟨hlow ▸ listMin_le_of_mem hmem, hhigh ▸ le_listMax_of_mem hmem⟩
  · rw [hlow, havg]
    exact listMin_le_listMean hne'
  · rw [havg, hhigh]
    exact listMean_le_listMax hne'

/-- Witness for C7: on the C1 series the historical low is at most the
historical average. -/
theorem claim7_witness :
    (analyzePriceTrends hist1 72).historical_low ≤ (analyzePriceTrends hist1 72).historical_average :=
  (claim7_bounds hist1 72 (by simp [hist1, samples1])).2.1

/-- C8: after ingesting a sample, the series stored under the sample's
route+date key has that sample as its last element with all prior elements
unchanged in order and value, and every other key's series is unchanged. -/
theorem claim8_ingest_frame (opt : PriceOptimizer) (pd : PriceData) :
    (∃ h', (addPriceData opt pd).priceHistories
        (generateRouteKey pd.route pd.route.departureDate) = some h' ∧
      h'.prices =
        (match opt.priceHistories (generateRouteKey pd.route pd.route.departureDate) with
         | none => []
         | some h => h.prices) ++ [pd]) ∧
    (∀ k, k ≠ generateRouteKey pd.route pd.route.departureDate →
      (addPriceData opt pd).priceHistories k = opt.priceHistories k) := by
  constructor
  · cases hl : opt.priceHistories (generateRouteKey pd.route pd.route.departureDate) with
    | none =>
      refine ⟨PriceHistory.addPrice { route_key := generateRouteKey pd.route pd.route.departureDate } pd, ?_, ?_⟩
      · simp [addPriceData, hl]
      · rw [addPrice_prices]
    | some h =>
      refine ⟨h.addPrice pd, ?_, ?_⟩
      · simp [addPriceData, hl]
      · rw [addPrice_prices]
  · intro k hk
    simp [addPriceData, hk]

/-- Witness for C8: ingesting a sample leaves an unrelated key untouched. -/
theorem claim8_witness :
    (addPriceData PriceOptimizer.empty (sampleA 100 0)).priceHistories "OTHER" =
      PriceOptimizer.empty.priceHistories "OTHER" :=
  (claim8_ingest_frame PriceOptimizer.empty (sampleA 100 0)).2 "OTHER" (by decide)

/-- C10: every history stored in a reachable optimizer state is non-empty
and is stored under its own route_key, so the statistics query only ever
computes min/max/mean over a non-empty price list. -/
theorem claim10_invariant (l : List PriceData) (k : String) (h : PriceHistory)
    (hst : (runIngest l).priceHistories k = some h) :
    h.prices ≠ [] ∧ h.route_key = k ∧
    (∀ s, getPriceStatistics (runIngest l) k = some s → 0 < s.total_data_points) := by
  have hinv : StoreInv (runIngest l) :=
    store_inv_fold l PriceOptimizer.empty store_inv_empty
  have hmain := hinv k h hst
  refine ⟨hmain.1, hmain.2, ?_⟩
  intro s hs
  simp only [getPriceStatistics, hst] at hs
  have hs' : s.total_data_points = (h.prices.map (·.price)).length := by
    rw [← Option.some.inj hs]
  rw [hs']
  simpa using List.length_pos.mpr hmain.1

/-- Witness for C10: the state after ingesting one sample stores a
non-empty history under its own key. -/
theorem claim10_witness : histW.prices ≠ [] ∧ histW.route_key = keyA :=
  ⟨(claim10_invariant [sampleA 100 0] keyA histW (by
      norm_num +decide [runIngest, addPriceData, PriceOptimizer.empty, PriceHistory.addPrice,
        PriceHistory.updateStatistics, sampleA, routeA, keyA, generateRouteKey,
        listMin, listMax, listMean, histW, min_def, max_def])).1,
   (claim10_invariant [sampleA 100 0] keyA histW (by
      norm_num +decide [runIngest, addPriceData, PriceOptimizer.empty, PriceHistory.addPrice,
        PriceHistory.updateStatistics, sampleA, routeA, keyA, generateRouteKey,
        listMin, listMax, listMean, histW, min_def, max_def])).2.1⟩

/-- C1 counterexample: on the stored series [100,100,100,100,100,100,70]
with candidate 72 and 20 days until departure the call does not return WAIT
(or any result): it raises TypeError at the volatility factor
(optimizer.py:220). -/
theorem claim1_counterexample :
    getOptimizationRecommendation opt1 routeA 72 dateA 20 = Except.error PyError.typeError := by
  norm_num +decide [opt1, runIngest, samples1, sampleA, routeA, dateA,
    getOptimizationRecommendation, PriceOptimizer.empty, addPriceData,
    PriceHistory.addPrice, PriceHistory.updateStatistics, generateRouteKey,
    generateRecommendation, step4, listMin, listMax, listMean, min_def, max_def]

/-- C1 amended: on the series [100]*6 + [70] with candidate 72 and days = 20
the trend is classified "falling"; since ratio_to_low = 72/70 ≤ 1.1, at the
moment the factor-4 guard is evaluated the in-flight factor list is
[early, excellent_price, falling_trend] — good_price is not triggered — and
the in-flight recommendation is BUY_NOW; the call then raises TypeError at
optimizer.py:220 and returns no recommendation at all, in particular not
WAIT. -/
theorem claim1_amended :
    (analyzePriceTrends hist1 72).trend = "falling" ∧
    (analyzePriceTrends hist1 72).current_vs_historical_low ≤ 1.1 ∧
    ((factorState 20 (analyzePriceTrends hist1 72)).1.map (fun f => f.1) =
      ["early", "excellent_price", "falling_trend"]) ∧
    (factorState 20 (analyzePriceTrends hist1 72)).2 = .BUY_NOW ∧
    getOptimizationRecommendation opt1 routeA 72 dateA 20 = Except.error PyError.typeError := by
  norm_num +decide [opt1, runIngest, samples1, sampleA, routeA, dateA, hist1,
    getOptimizationRecommendation, PriceOptimizer.empty, addPriceData,
    PriceHistory.addPrice, PriceHistory.updateStatistics, generateRouteKey,
    generateRecommendation, step4, factorState, step1, step2, step3,
    analyzePriceTrends, calculateTrend, isPriceOutlier, sqrtLT, lastN,
    listMin, listMax, listMean, sampleVariance, min_def, max_def,
    abs_eq_max_neg]

/-- C2 counterexample: the stored series [95, 95, 95, 115] has mean 100 and
sample standard deviation 10 (variance 100), candidate 95 gives
ratio_to_low = 1 ≤ 1.05 and days = 5, yet the call raises TypeError at
optimizer.py:220 instead of returning PRICE_ALERT (or anything). -/
theorem claim2_counterexample :
    listMean (samples2.map (·.price)) = 100 ∧
    sampleVariance (samples2.map (·.price)) = 100 ∧
    95 / listMin (samples2.map (·.price)) ≤ 1.05 ∧
    getOptimizationRecommendation opt2 routeA 95 dateA 5 = Except.error PyError.typeError := by
  norm_num +decide [opt2, runIngest, samples2, sampleA, routeA, dateA,
    getOptimizationRecommendation, PriceOptimizer.empty, addPriceData,
    PriceHistory.addPrice, PriceHistory.updateStatistics, generateRouteKey,
    generateRecommendation, step4, listMin, listMax, listMean, sampleVariance,
    min_def, max_def]

/-- C2 amended: for every stored series whose mean is 100 and whose sample
standard deviation is 10 (variance 100), with candidate price 95,
ratio_to_low ≤ 1.05 and days_until_departure = 5, the call never returns
PRICE_ALERT: with fewer than 3 samples it returns the no-data BUY_NOW
result (5 ≤ 7 days), and with 3 or more samples it raises TypeError at
optimizer.py:220 before the override could run. -/
theorem claim2_amended (opt : PriceOptimizer) (route : TrainRoute) (td : String)
    (h : PriceHistory)
    (hstore : opt.priceHistories (generateRouteKey route td) = some h)
    (_hmean : listMean (h.prices.map (·.price)) = 100)
    (_hvar : sampleVariance (h.prices.map (·.price)) = 100)
    (_hlow : 95 / listMin (h.prices.map (·.price)) ≤ 1.05) :
    getOptimizationRecommendation opt route 95 td 5 =
      (if h.prices.length < 3
       then Except.ok (noDataRecommendation (generateRouteKey route td) 95 5)
       else Except.error PyError.typeError) ∧
    (noDataRecommendation (generateRouteKey route td) 95 5).recommendation = .BUY_NOW := by
  constructor
  · unfold getOptimizationRecommendation
    simp only [hstore]
    by_cases hlen : h.prices.length < 3
    · rw [if_pos hlen, if_pos hlen]
    · rw [if_neg hlen, if_neg hlen]
      rfl
  · unfold noDataRecommendation
    rw [if_pos (by norm_num : (5:ℤ) ≤ 7)]

/-- Witness for C2 (amended): applied to the concrete series
[95, 95, 95, 115] (mean 100, stdev 10, ratio_to_low = 1), candidate 95 and
days = 5, the no-data arm of the conclusion carries BUY_NOW. -/
theorem claim2_witness :
    (noDataRecommendation (generateRouteKey routeA dateA) 95 5).recommendation = .BUY_NOW :=
  (claim2_amended opt2 routeA dateA hist2
    (by norm_num +decide [opt2, runIngest, addPriceData, PriceOptimizer.empty,
      PriceHistory.addPrice, PriceHistory.updateStatistics, samples2, sampleA,
      routeA, dateA, hist2, keyA, generateRouteKey, listMin, listMax, listMean,
      min_def, max_def])
    (by norm_num [hist2, samples2, sampleA, listMean])
    (by norm_num [hist2, samples2, sampleA, sampleVariance, listMean])
    (by norm_num [hist2, samples2, sampleA, listMin, min_def])).2

end TrenesTool
